import Mathlib

/-!
Verification of the loans254 program (Rust, Solana) against its
natural-language specification.

The development shallowly embeds the program's source files:

* `src/utils.rs`   — fee/rate policy functions and the `COption<Pubkey>` codec;
* `src/state.rs`   — the fixed-width 230-byte persistent `Loan` record codec;
* `src/instruction.rs` — the opcode-tagged wire codec (`LoanInstruction::unpack`);
* `src/processor.rs`   — the four lifecycle handlers, modelled as pure
  functions from an explicit account/record input to a `ProgramResult`
  together with the list of effects (record writes and requests to the
  external token program) issued before returning.

Machine integers are embedded as `Nat` with explicit `% 2^32` / `% 2^64`
where Rust's wrapping arithmetic matters.  Byte buffers are `List Nat`.
-/

set_option maxHeartbeats 2000000
set_option maxRecDepth 4000

/-- A public key / identity: a byte string (32 bytes for well-formed keys). -/
abbrev Pubkey := List Nat

/-- Little-endian value of a byte list (`uXX::from_le_bytes`). -/
def leToNat : List Nat → Nat
  | [] => 0
  | b :: bs => b + 256 * leToNat bs

/-- Little-endian encoding of `n` into `k` bytes (`uXX::to_le_bytes`). -/
def natToLE : Nat → Nat → List Nat
  | 0, _ => []
  | k + 1, n => n % 256 :: natToLE k (n / 256)

theorem length_natToLE (k n : Nat) : (natToLE k n).length = k := by
  induction k generalizing n with
  | zero => rfl
  | succ k ih => simp [natToLE, ih]

theorem leToNat_natToLE (k n : Nat) (h : n < 256 ^ k) : leToNat (natToLE k n) = n := by
  induction k generalizing n with
  | zero => simpa [natToLE, leToNat, eq_comm] using Nat.lt_one_iff.mp (by simpa using h)
  | succ k ih =>
      have hdiv : n / 256 < 256 ^ k := by
        rw [Nat.div_lt_iff_lt_mul (by norm_num)]
        calc n < 256 ^ (k + 1) := h
        _ = 256 ^ k * 256 := by ring
      simp [natToLE, leToNat, ih (n / 256) hdiv]
      omega

/-- The loan program's custom errors (`src/error.rs`).  `error.rs` as committed
declares only `InvalidInstruction` and `NotRentExempt`; `processor.rs`
additionally refers to `LoanError::NotAuthorized`, which we therefore include
as a third variant (its numeric code is irrelevant to every claim). -/
inductive LoanError
  | InvalidInstruction
  | NotRentExempt
  | NotAuthorized
  deriving DecidableEq, Repr

/-- The subset of `solana_program::program_error::ProgramError` variants the
program can produce, plus custom program errors. -/
inductive ProgramError
  | MissingRequiredSignature
  | IncorrectProgramId
  | InsufficientFunds
  | AccountAlreadyInitialized
  | UninitializedAccount
  | InvalidAccountData
  | Custom (e : LoanError)
  deriving DecidableEq, Repr

/-- Decidable equality for `Except` outcomes (used to evaluate the model on
concrete inputs). -/
instance {ε α : Type} [DecidableEq ε] [DecidableEq α] : DecidableEq (Except ε α)
  | Except.ok a, Except.ok b =>
      if h : a = b then isTrue (by rw [h])
      else isFalse (fun hc => h (Except.ok.inj hc))
  | Except.ok _, Except.error _ => isFalse (fun hc => Except.noConfusion hc)
  | Except.error _, Except.ok _ => isFalse (fun hc => Except.noConfusion hc)
  | Except.error e, Except.error f =>
      if h : e = f then isTrue (by rw [h])
      else isFalse (fun hc => h (Except.error.inj hc))

/- ------------------------------------------------------------------ -/
/- src/utils.rs — fee/rate policy functions                            -/
/- ------------------------------------------------------------------ -/

/-- `get_interest_rate` (utils.rs): constant 9 (%). -/
def get_interest_rate (_borrower : Pubkey) (_loan_amount : Nat) : Nat := 9

/-- `get_guarantor_share` (utils.rs): constant 50 (%). -/
def get_guarantor_share (_guarantor : Pubkey) (_loan_amount : Nat) : Nat := 50

/-- `get_lender_share` (utils.rs): constant 50 (%). -/
def get_lender_share (_lender : Pubkey) (_loan_amount : Nat) : Nat := 50

/-- `get_duration` (utils.rs): constant `24 * 30` (documented as "30 days"). -/
def get_duration (_borrower : Pubkey) (_loan_amount : Nat) : Nat := 24 * 30

/-- `get_processing_fee` (utils.rs): constant 1 (%). -/
def get_processing_fee (_borrower : Pubkey) (_expected_amount : Nat)
    (_loan_duration : Nat) (_loan_interest : Nat) : Nat := 1

/-- `get_application_fee` (utils.rs): constant 1. -/
def get_application_fee (_borrower : Pubkey) (_expected_amount : Nat) : Nat := 1

/-- `get_borrowed_amount` (utils.rs): the total repayable amount.
`total_charge` is a `u32` sum and the two multiplications are `u64`
operations, hence the explicit `% 2^32` / `% 2^64`. -/
def get_borrowed_amount (borrower : Pubkey) (expected_amount : Nat)
    (loan_duration : Nat) (loan_interest : Nat) : Nat :=
  let processing_fee :=
    get_processing_fee borrower expected_amount loan_duration loan_interest
  let total_charge := (loan_interest + processing_fee) % 2 ^ 32
  (loan_duration / (24 * 365)) * (total_charge / 100 + 1) % 2 ^ 64
    * expected_amount % 2 ^ 64

/- ------------------------------------------------------------------ -/
/- src/utils.rs — COption<Pubkey> codec                                -/
/- ------------------------------------------------------------------ -/

/-- `pack_coption_key` (utils.rs).  Writes a 4-byte tag followed by the
32-byte key; for `None` only the tag is written and the 32 body bytes of the
destination slice are left untouched, so the old 36-byte destination chunk is
an argument. -/
def pack_coption_key (src : Option Pubkey) (old : List Nat) : List Nat :=
  match src with
  | some key => [1, 0, 0, 0] ++ key
  | none => [0, 0, 0, 0] ++ old.drop 4

/-- `unpack_coption_key` (utils.rs): tag `[0,0,0,0]` is absent, `[1,0,0,0]`
is present, anything else is `InvalidAccountData`. -/
def unpack_coption_key (src : List Nat) : Except ProgramError (Option Pubkey) :=
  if src.take 4 = [0, 0, 0, 0] then Except.ok none
  else if src.take 4 = [1, 0, 0, 0] then Except.ok (some (src.drop 4))
  else Except.error ProgramError.InvalidAccountData

/- ------------------------------------------------------------------ -/
/- src/state.rs — the persistent Loan record and its codec             -/
/- ------------------------------------------------------------------ -/

/-- `LoanStatus` discriminants (state.rs).  `processor.rs` additionally uses
`LoanStatus::Repaid`, which state.rs as committed does not declare; the spec's
status enum (§3) lists `Repaid` between `Accepted` and `Cancelled`, and its
numeric value is irrelevant to every claim, so we assign it the next free
discriminant. -/
def LoanStatus.Pending : Nat := 0

/-- `LoanStatus::Initialized` (state.rs). -/
def LoanStatus.Initialized : Nat := 1

/-- `LoanStatus::Guaranteed` (state.rs). -/
def LoanStatus.Guaranteed : Nat := 2

/-- `LoanStatus::Accepted` (state.rs). -/
def LoanStatus.Accepted : Nat := 3

/-- `LoanStatus::Cancelled` (state.rs). -/
def LoanStatus.Cancelled : Nat := 4

/-- Modelled from the spec: `LoanStatus::Repaid` is used by processor.rs but
missing from state.rs's enum; the spec (§3) declares it as a distinct
terminal status. -/
def LoanStatus.Repaid : Nat := 5

/-- The persistent `Loan` record exactly as declared in `src/state.rs`
(`COption<Pubkey>` becomes `Option Pubkey`, machine integers become `Nat`). -/
structure Loan where
  is_initialized : Bool
  status : Nat
  initializer_pubkey : Pubkey
  temp_token_account_pubkey : Pubkey
  borrower_loan_receive_pubkey : Pubkey
  guarantor_pubkey : Option Pubkey
  lender_pubkey : Option Pubkey
  lender_loan_repayment_pubkey : Option Pubkey
  expected_amount : Nat
  amount : Nat
  interest_rate : Nat
  duration : Nat
  deriving DecidableEq, Repr

/-- `Loan::LEN` (state.rs): 1+1+32+32+32+36+36+36+8+8+4+4 = 230. -/
def Loan.LEN : Nat := 230

/-- Well-formedness of a `Loan` value with respect to the Rust types:
keys are 32 bytes, `status` fits in a `u8`, amounts in `u64`, rate and
duration in `u32`. -/
def Loan.wf (l : Loan) : Prop :=
  l.status < 256 ∧
  l.initializer_pubkey.length = 32 ∧
  l.temp_token_account_pubkey.length = 32 ∧
  l.borrower_loan_receive_pubkey.length = 32 ∧
  (∀ k ∈ l.guarantor_pubkey, k.length = 32) ∧
  (∀ k ∈ l.lender_pubkey, k.length = 32) ∧
  (∀ k ∈ l.lender_loan_repayment_pubkey, k.length = 32) ∧
  l.expected_amount < 2 ^ 64 ∧
  l.amount < 2 ^ 64 ∧
  l.interest_rate < 2 ^ 32 ∧
  l.duration < 2 ^ 32

instance (l : Loan) : Decidable l.wf := by
  unfold Loan.wf
  infer_instance

/-- `Loan::unpack_from_slice` (state.rs).  The Rust code first takes the
leading 230-byte window (`array_ref![src, 0, 230]`) and then splits it into
consecutive fields; all callers go through the `Pack` trait wrapper, which
rejects buffers whose length is not exactly 230 before this function runs. -/
def unpack_from_slice (src0 : List Nat) : Except ProgramError Loan :=
  let src := src0.take 230
  let r1 := src.drop 1
  let r2 := r1.drop 1
  let r3 := r2.drop 32
  let r4 := r3.drop 32
  let r5 := r4.drop 32
  let r6 := r5.drop 36
  let r7 := r6.drop 36
  let r8 := r7.drop 36
  let r9 := r8.drop 8
  let r10 := r9.drop 8
  let init_field : Except ProgramError Bool :=
    if src.take 1 = [0] then Except.ok false
    else if src.take 1 = [1] then Except.ok true
    else Except.error ProgramError.InvalidAccountData
  -- the four fallible reads, with the first failure propagated (Rust's `?`)
  match init_field, unpack_coption_key (r5.take 36),
      unpack_coption_key (r6.take 36), unpack_coption_key (r7.take 36) with
  | Except.error e, _, _, _ => Except.error e
  | _, Except.error e, _, _ => Except.error e
  | _, _, Except.error e, _ => Except.error e
  | _, _, _, Except.error e => Except.error e
  | Except.ok is_init, Except.ok g, Except.ok le, Except.ok lr =>
      Except.ok {
        is_initialized := is_init
        status := leToNat (r1.take 1)
        initializer_pubkey := r2.take 32
        temp_token_account_pubkey := r3.take 32
        borrower_loan_receive_pubkey := r4.take 32
        guarantor_pubkey := g
        lender_pubkey := le
        lender_loan_repayment_pubkey := lr
        expected_amount := leToNat (r8.take 8)
        amount := leToNat (r9.take 8)
        interest_rate := leToNat (r10.take 4)
        duration := leToNat ((r10.drop 4).take 4)
      }

/-- `Loan::pack_into_slice` (state.rs).  Overwrites the leading 230-byte
window of `dst` field by field; for an absent optional key only the 4 tag
bytes are written and the 32 body bytes keep their old value
(`pack_coption_key`). -/
def pack_into_slice (l : Loan) (dst : List Nat) : List Nat :=
  let d230 := dst.take 230
  let old_g := (d230.drop 98).take 36
  let old_l := (d230.drop 134).take 36
  let old_lr := (d230.drop 170).take 36
  [cond l.is_initialized 1 0] ++ [l.status % 256] ++
    l.initializer_pubkey ++ l.temp_token_account_pubkey ++
    l.borrower_loan_receive_pubkey ++
    pack_coption_key l.guarantor_pubkey old_g ++
    pack_coption_key l.lender_pubkey old_l ++
    pack_coption_key l.lender_loan_repayment_pubkey old_lr ++
    natToLE 8 l.expected_amount ++ natToLE 8 l.amount ++
    natToLE 4 l.interest_rate ++ natToLE 4 l.duration ++
    dst.drop 230

/-- `Pack::unpack_unchecked` for `Loan`: the default implementation of the
`solana_program::program_pack::Pack` trait (an external library dependency)
rejects any input whose length differs from `Loan::LEN` with
`InvalidAccountData`, then calls `unpack_from_slice`. -/
def Loan.unpack_unchecked (input : List Nat) : Except ProgramError Loan :=
  if input.length ≠ Loan.LEN then Except.error ProgramError.InvalidAccountData
  else unpack_from_slice input

/-- `Pack::unpack` for `Loan`: `unpack_unchecked` followed by the
`is_initialized` gate (default implementation of the external `Pack` trait). -/
def Loan.unpack (input : List Nat) : Except ProgramError Loan :=
  match Loan.unpack_unchecked input with
  | Except.ok l =>
      if l.is_initialized then Except.ok l
      else Except.error ProgramError.UninitializedAccount
  | Except.error e => Except.error e

/- ------------------------------------------------------------------ -/
/- src/instruction.rs — the wire codec                                 -/
/- ------------------------------------------------------------------ -/

/-- `LoanInstruction` (instruction.rs). -/
inductive LoanInstruction
  | InitLoan (amount : Nat)
  | GuaranteeLoan
  | AcceptLoan
  | RepayLoan
  deriving DecidableEq, Repr

/-- `LoanInstruction::unpack_amount` (instruction.rs): `input.get(..8)`
yields the first 8 bytes when the input is long enough, otherwise
`InvalidInstruction`. -/
def unpack_amount (input : List Nat) : Except ProgramError Nat :=
  if 8 ≤ input.length then Except.ok (leToNat (input.take 8))
  else Except.error (ProgramError.Custom LoanError.InvalidInstruction)

/-- `LoanInstruction::unpack` (instruction.rs): `split_first` then dispatch
on the tag byte. -/
def LoanInstruction.unpack (input : List Nat) :
    Except ProgramError LoanInstruction :=
  match input with
  | [] => Except.error (ProgramError.Custom LoanError.InvalidInstruction)
  | tag :: rest =>
      if tag = 0 then (unpack_amount rest).map LoanInstruction.InitLoan
      else if tag = 1 then Except.ok LoanInstruction.GuaranteeLoan
      else if tag = 2 then Except.ok LoanInstruction.AcceptLoan
      else if tag = 3 then Except.ok LoanInstruction.RepayLoan
      else Except.error (ProgramError.Custom LoanError.InvalidInstruction)

/- ------------------------------------------------------------------ -/
/- src/processor.rs — the four lifecycle handlers                      -/
/- ------------------------------------------------------------------ -/

/-- Modelled from the spec: the in-memory Loan record that `processor.rs`
operates on.  processor.rs reads and writes the fields `loan_mint_pubkey`,
`guarantor_repayment_pubkey`, `collateral_account_pubkey` and
`lender_repayment_pubkey` and the status `Repaid`, none of which the (stale)
`state.rs` in the source tree declares; their meaning is taken from §3 of the
spec (`fee_escrow_account`, `guarantor_repayment_account`,
`collateral_account`, `lender_repayment_account`, status enum including
`Repaid`).  The fields that `state.rs` does declare keep its names. -/
structure LoanRecord where
  is_initialized : Bool := false
  status : Nat := 0
  initializer_pubkey : Pubkey := []
  loan_mint_pubkey : Pubkey := []
  borrower_loan_receive_pubkey : Pubkey := []
  guarantor_pubkey : Option Pubkey := none
  guarantor_repayment_pubkey : Option Pubkey := none
  collateral_account_pubkey : Option Pubkey := none
  lender_pubkey : Option Pubkey := none
  lender_repayment_pubkey : Option Pubkey := none
  expected_amount : Nat := 0
  amount : Nat := 0
  interest_rate : Nat := 0
  duration : Nat := 0
  deriving DecidableEq, Repr

/-- One entry of `accounts: &[AccountInfo]` as the handlers read it: the
key, the signer flag, the owning program, the lamport balance and the length
of the account's data region. -/
structure AccountInfo where
  key : Pubkey
  is_signer : Bool
  owner : Pubkey
  lamports : Nat
  data_len : Nat
  deriving DecidableEq, Repr

/-- The fixed id of the external SPL token program (`spl_token::id()`).  Only
its role as a distinguished constant matters to the claims, so the concrete
32 bytes are immaterial; we pick a fixed well-formed key. -/
def spl_token_id : Pubkey := List.replicate 32 6

/-- Modelled from the spec: `Pubkey::find_program_address(&[b"loan"], pid)`
derives the deterministic keyless custodian identity from the program id and
the fixed domain tag (§4.5).  The real derivation hashes with SHA-256 inside
the external `solana_program` library; the claims depend only on it being a
deterministic function of the program id, so we model it as tagging the id
with the domain bytes `b"loan"`. -/
def find_program_address (program_id : Pubkey) : Pubkey × Nat :=
  (108 :: 111 :: 97 :: 110 :: program_id, 255)

/-- An effect issued by a handler before it returns: a write of the loan
record into the loan account's data, or a request to the external token
program (`set_authority` / `transfer` CPIs). -/
inductive Effect
  | write_record (account : Pubkey) (rec : LoanRecord)
  | set_authority (token_program : Pubkey) (account : Pubkey)
      (new_authority : Option Pubkey) (authorized_by : Pubkey)
  | transfer (token_program : Pubkey) (source : Pubkey) (dest : Pubkey)
      (authority : Pubkey) (amount : Nat)
  deriving DecidableEq, Repr

/-- Whether an effect is a custody-reassignment request to the token
program. -/
def Effect.is_custody_request : Effect → Bool
  | Effect.set_authority _ _ _ _ => true
  | _ => false

/-- Whether an effect writes the loan record. -/
def Effect.is_record_write : Effect → Bool
  | Effect.write_record _ _ => true
  | _ => false

/-- The loan record written by the first `write_record` effect, if any. -/
def written_record : List Effect → Option LoanRecord
  | [] => none
  | Effect.write_record _ r :: _ => some r
  | _ :: es => written_record es

/-- A handler's outcome: the `ProgramResult` together with the effects it
issued before returning.  On Solana a failed instruction commits nothing, and
in this program every early `return Err(..)` happens before any effect, which
the model makes syntactically evident. -/
abbrev HandlerResult := Except ProgramError Unit × List Effect

/-- The accounts handed to `process_init_loan`, in the order the handler
pulls them from the account iterator, plus the rent sysvar (as the
`is_exempt` predicate the handler queries) and the result of
`Loan::unpack_unchecked` on the loan account's data. -/
structure InitLoanAccounts where
  initializer : AccountInfo
  loan_mint_account : AccountInfo
  token_to_receive_account : AccountInfo
  loan_account : AccountInfo
  rent_is_exempt : Nat → Nat → Bool
  token_program : AccountInfo
  loan_data : Except ProgramError LoanRecord

/-- `process_init_loan` (processor.rs).  Note: the application-fee bound is
computed in Rust as `get_application_fee(..) * amount as f64` and compared
after an `as u64` cast; with the constant fee `1` the product is the exact
integer `amount` whenever it fits in 53 bits, and no claim depends on the
cast's rounding, so the model uses exact `Nat` arithmetic. -/
def process_init_loan (program_id : Pubkey) (accs : InitLoanAccounts)
    (amount : Nat) : HandlerResult :=
  if ¬ accs.initializer.is_signer then
    (Except.error ProgramError.MissingRequiredSignature, [])
  else if accs.token_to_receive_account.owner ≠ spl_token_id then
    (Except.error ProgramError.IncorrectProgramId, [])
  else if accs.loan_account.owner ≠ program_id then
    (Except.error ProgramError.IncorrectProgramId, [])
  else if ¬ accs.rent_is_exempt accs.loan_account.lamports accs.loan_account.data_len then
    (Except.error (ProgramError.Custom LoanError.NotRentExempt), [])
  else if accs.loan_account.lamports <
      get_application_fee accs.initializer.key amount * amount then
    (Except.error ProgramError.InsufficientFunds, [])
  else
    match accs.loan_data with
    | Except.error e => (Except.error e, [])
    | Except.ok loan_info =>
        if loan_info.is_initialized then
          (Except.error ProgramError.AccountAlreadyInitialized, [])
        else
          let dur := get_duration accs.initializer.key amount
          let rate := get_interest_rate accs.initializer.key amount
          let li : LoanRecord := { loan_info with
            is_initialized := true
            status := LoanStatus.Initialized
            initializer_pubkey := accs.initializer.key
            loan_mint_pubkey := accs.loan_mint_account.key
            borrower_loan_receive_pubkey := accs.token_to_receive_account.key
            expected_amount := amount
            interest_rate := rate
            duration := dur
            amount := get_borrowed_amount accs.initializer.key amount dur rate }
          (Except.ok (), [Effect.write_record accs.loan_account.key li])

/-- The accounts handed to `process_guarantee_loan`, in iterator order, with
the rent predicate and the `Loan::unpack_unchecked` result for the loan
account's data (`Loan::unpack`'s `is_initialized` gate is applied inside the
handler model). -/
structure GuaranteeLoanAccounts where
  guarantor_info : AccountInfo
  collateral_account_info : AccountInfo
  guarantor_payment_account_info : AccountInfo
  loan_account_info : AccountInfo
  rent_is_exempt : Nat → Nat → Bool
  token_program : AccountInfo
  loan_data : Except ProgramError LoanRecord

/-- `process_guarantee_loan` (processor.rs). -/
def process_guarantee_loan (program_id : Pubkey)
    (accs : GuaranteeLoanAccounts) : HandlerResult :=
  if ¬ accs.guarantor_info.is_signer then
    (Except.error ProgramError.MissingRequiredSignature, [])
  else if accs.loan_account_info.owner ≠ program_id then
    (Except.error ProgramError.IncorrectProgramId, [])
  else if ¬ accs.rent_is_exempt accs.loan_account_info.lamports
      accs.loan_account_info.data_len then
    (Except.error (ProgramError.Custom LoanError.NotRentExempt), [])
  else
    match accs.loan_data with
    | Except.error e => (Except.error e, [])
    | Except.ok loan_data =>
        -- `Loan::unpack`'s is_initialized gate
        if ¬ loan_data.is_initialized then
          (Except.error ProgramError.UninitializedAccount, [])
        -- the handler's own (redundant) re-check
        else if ¬ loan_data.is_initialized then
          (Except.error ProgramError.UninitializedAccount, [])
        else if loan_data.status ≠ LoanStatus.Initialized then
          (Except.error (ProgramError.Custom LoanError.InvalidInstruction), [])
        else if accs.collateral_account_info.lamports < loan_data.amount then
          (Except.error ProgramError.InsufficientFunds, [])
        else if ¬ accs.rent_is_exempt accs.guarantor_payment_account_info.lamports
            accs.guarantor_payment_account_info.data_len then
          (Except.error (ProgramError.Custom LoanError.NotRentExempt), [])
        else
          let ld := { loan_data with
            status := LoanStatus.Guaranteed
            guarantor_pubkey := some accs.guarantor_info.key
            guarantor_repayment_pubkey := some accs.guarantor_payment_account_info.key
            collateral_account_pubkey := some accs.collateral_account_info.key }
          let pda := (find_program_address program_id).fst
          (Except.ok (),
            [Effect.write_record accs.loan_account_info.key ld,
             Effect.set_authority accs.token_program.key
               accs.collateral_account_info.key (some pda)
               accs.guarantor_info.key,
             Effect.set_authority accs.token_program.key
               accs.guarantor_payment_account_info.key (some pda)
               accs.guarantor_info.key])

/-- The accounts handed to `process_accept_loan`, in iterator order. -/
structure AcceptLoanAccounts where
  lender_info : AccountInfo
  lender_loan_transfer_info : AccountInfo
  lender_repayment_account_info : AccountInfo
  borrower_loan_receive_account_info : AccountInfo
  loan_account_info : AccountInfo
  rent_is_exempt : Nat → Nat → Bool
  token_program : AccountInfo
  loan_data : Except ProgramError LoanRecord

/-- `process_accept_loan` (processor.rs). -/
def process_accept_loan (program_id : Pubkey)
    (accs : AcceptLoanAccounts) : HandlerResult :=
  if ¬ accs.lender_info.is_signer then
    (Except.error ProgramError.MissingRequiredSignature, [])
  else if accs.lender_repayment_account_info.owner ≠ spl_token_id then
    (Except.error ProgramError.IncorrectProgramId, [])
  else if accs.loan_account_info.owner ≠ program_id then
    (Except.error ProgramError.IncorrectProgramId, [])
  else if ¬ accs.rent_is_exempt accs.loan_account_info.lamports
      accs.loan_account_info.data_len then
    (Except.error (ProgramError.Custom LoanError.NotRentExempt), [])
  else if ¬ accs.rent_is_exempt accs.lender_repayment_account_info.lamports
      accs.lender_repayment_account_info.data_len then
    (Except.error (ProgramError.Custom LoanError.NotRentExempt), [])
  else
    match accs.loan_data with
    | Except.error e => (Except.error e, [])
    | Except.ok loan_data =>
        -- `Loan::unpack`'s is_initialized gate
        if ¬ loan_data.is_initialized then
          (Except.error ProgramError.UninitializedAccount, [])
        -- the handler's own (redundant) re-check
        else if ¬ loan_data.is_initialized then
          (Except.error ProgramError.UninitializedAccount, [])
        else if loan_data.status ≠ LoanStatus.Guaranteed then
          (Except.error (ProgramError.Custom LoanError.InvalidInstruction), [])
        else if accs.borrower_loan_receive_account_info.key ≠
            loan_data.borrower_loan_receive_pubkey then
          (Except.error (ProgramError.Custom LoanError.NotAuthorized), [])
        else if accs.lender_loan_transfer_info.lamports < loan_data.expected_amount then
          (Except.error ProgramError.InsufficientFunds, [])
        else
          let amount := loan_data.expected_amount
          let ld := { loan_data with
            status := LoanStatus.Accepted
            lender_pubkey := some accs.lender_info.key
            lender_repayment_pubkey := some accs.lender_repayment_account_info.key }
          let pda := (find_program_address program_id).fst
          (Except.ok (),
            [Effect.write_record accs.loan_account_info.key ld,
             Effect.set_authority accs.token_program.key
               accs.lender_repayment_account_info.key (some pda)
               accs.lender_info.key,
             Effect.transfer accs.token_program.key
               accs.lender_loan_transfer_info.key
               accs.borrower_loan_receive_account_info.key
               accs.lender_info.key amount])

/-- The accounts handed to `process_repay_loan`, in iterator order.  Note
that, unlike the other three handlers, repay pulls no rent sysvar and never
reads the loan account's owner. -/
structure RepayLoanAccounts where
  payer_info : AccountInfo
  payer_token_account_info : AccountInfo
  guarantor_account_info : AccountInfo
  collateral_token_account_info : AccountInfo
  guarantor_token_account_info : AccountInfo
  lender_account_info : AccountInfo
  lender_token_account_info : AccountInfo
  loan_account_info : AccountInfo
  pda_account_info : AccountInfo
  token_program : AccountInfo
  loan_data : Except ProgramError LoanRecord

/-- `process_repay_loan` (processor.rs).  The interest split is computed in
Rust with `f64` arithmetic and `as u64` casts; the model mirrors the same
formulas with exact `Nat` arithmetic (`loan_interest` is a wrapping `u64`
subtraction, hence the `+ 2^64 ... % 2^64`).  No claim depends on the
numeric values of the shares. -/
def process_repay_loan (program_id : Pubkey)
    (accs : RepayLoanAccounts) : HandlerResult :=
  if ¬ accs.payer_info.is_signer then
    (Except.error ProgramError.MissingRequiredSignature, [])
  else
    match accs.loan_data with
    | Except.error e => (Except.error e, [])
    | Except.ok loan_data =>
        -- `Loan::unpack`'s is_initialized gate
        if ¬ loan_data.is_initialized then
          (Except.error ProgramError.UninitializedAccount, [])
        -- the handler's own (redundant) re-check
        else if ¬ loan_data.is_initialized then
          (Except.error ProgramError.UninitializedAccount, [])
        else if loan_data.status ≠ LoanStatus.Accepted then
          (Except.error (ProgramError.Custom LoanError.InvalidInstruction), [])
        else if accs.payer_token_account_info.lamports < loan_data.amount then
          (Except.error ProgramError.InsufficientFunds, [])
        else if some accs.guarantor_account_info.key ≠ loan_data.guarantor_pubkey then
          (Except.error (ProgramError.Custom LoanError.NotAuthorized), [])
        else if some accs.guarantor_token_account_info.key ≠
            loan_data.guarantor_repayment_pubkey then
          (Except.error (ProgramError.Custom LoanError.NotAuthorized), [])
        else if some accs.collateral_token_account_info.key ≠
            loan_data.collateral_account_pubkey then
          (Except.error (ProgramError.Custom LoanError.NotAuthorized), [])
        else if some accs.lender_account_info.key ≠ loan_data.lender_pubkey then
          (Except.error (ProgramError.Custom LoanError.NotAuthorized), [])
        else if some accs.lender_token_account_info.key ≠
            loan_data.lender_repayment_pubkey then
          (Except.error (ProgramError.Custom LoanError.NotAuthorized), [])
        else
          let loan_interest :=
            (loan_data.amount + 2 ^ 64 - loan_data.expected_amount) % 2 ^ 64
          let program_share :=
            loan_interest * get_processing_fee loan_data.initializer_pubkey
              loan_data.expected_amount loan_data.duration
              loan_data.interest_rate / 100
          let lender_share := (loan_interest - program_share) *
            get_lender_share accs.lender_account_info.key loan_data.amount / 100
          let total_lender_share := lender_share + loan_data.expected_amount
          let guarantor_share := (loan_interest - program_share) *
            get_guarantor_share accs.guarantor_account_info.key loan_data.amount / 100
          let ld := { loan_data with status := LoanStatus.Repaid }
          let pda := (find_program_address program_id).fst
          (Except.ok (),
            [Effect.write_record accs.loan_account_info.key ld,
             Effect.transfer accs.token_program.key
               accs.payer_token_account_info.key
               accs.guarantor_token_account_info.key
               accs.payer_info.key guarantor_share,
             Effect.transfer accs.token_program.key
               accs.payer_token_account_info.key
               accs.lender_token_account_info.key
               accs.payer_info.key total_lender_share,
             Effect.set_authority accs.token_program.key
               accs.collateral_token_account_info.key
               (some accs.guarantor_account_info.key) pda,
             Effect.set_authority accs.token_program.key
               accs.guarantor_token_account_info.key
               (some accs.guarantor_account_info.key) pda,
             Effect.set_authority accs.token_program.key
               accs.lender_token_account_info.key
               (some accs.lender_account_info.key) pda])

/- ------------------------------------------------------------------ -/
/- Concrete fixtures used by witnesses and counterexamples             -/
/- ------------------------------------------------------------------ -/

/-- A concrete account value. -/
def acct (k : Pubkey) (s : Bool) (o : Pubkey) (lam : Nat) : AccountInfo :=
  { key := k, is_signer := s, owner := o, lamports := lam, data_len := 230 }

/-- A concrete, fully valid `InitLoan` account bundle over a fresh record. -/
def init_accs : InitLoanAccounts :=
  { initializer := acct [1] true [0] 10
    loan_mint_account := acct [2] false [0] 0
    token_to_receive_account := acct [3] false spl_token_id 0
    loan_account := acct [4] false [9] 1000000
    rent_is_exempt := fun _ _ => true
    token_program := acct spl_token_id false [0] 0
    loan_data := Except.ok {} }

/-- The record `process_init_loan [9] init_accs 1` writes. -/
def c1_rec : LoanRecord :=
  { is_initialized := true
    status := LoanStatus.Initialized
    initializer_pubkey := [1]
    loan_mint_pubkey := [2]
    borrower_loan_receive_pubkey := [3]
    expected_amount := 1
    amount := 0
    interest_rate := 9
    duration := 720 }

/-- The record `process_init_loan [9] init_accs 0` writes. -/
def c1_rec0 : LoanRecord :=
  { c1_rec with expected_amount := 0 }

/- ------------------------------------------------------------------ -/
/- C10 — instruction decoding ignores trailing bytes                   -/
/- ------------------------------------------------------------------ -/

/-- C10: for every byte buffer on which `LoanInstruction::unpack` succeeds
(recognized tag 0-3 with its full payload), appending arbitrary extra bytes
yields the same decoded operation. -/
theorem c10_unpack_ignores_trailing (input extra : List Nat) (i : LoanInstruction)
    (h : LoanInstruction.unpack input = Except.ok i) :
    LoanInstruction.unpack (input ++ extra) = Except.ok i := by
  cases input with
  | nil => simp [LoanInstruction.unpack] at h
  | cons tag rest =>
      simp only [List.cons_append, LoanInstruction.unpack] at h ⊢
      split_ifs at h ⊢ with h0 h1 h2 h3
      · by_cases h8 : 8 ≤ rest.length
        · have h8' : 8 ≤ (rest ++ extra).length := by
            simp only [List.length_append]; omega
          unfold unpack_amount at h ⊢
          rw [if_pos h8'] ; rw [if_pos h8] at h
          rwa [List.take_append_of_le_length h8]
        · unfold unpack_amount at h
          rw [if_neg h8] at h
          simp [Except.map] at h
      · exact h
      · exact h
      · exact h

/-- C10 witness: decoding `InitLoan(258)` from its 9-byte buffer with two
trailing bytes appended yields the same instruction. -/
theorem c10_unpack_ignores_trailing_witness :
    LoanInstruction.unpack ([0, 2, 1, 0, 0, 0, 0, 0, 0] ++ [7, 7]) =
      Except.ok (LoanInstruction.InitLoan 258) :=
  c10_unpack_ignores_trailing [0, 2, 1, 0, 0, 0, 0, 0, 0] [7, 7]
    (LoanInstruction.InitLoan 258) (by decide)

/- ------------------------------------------------------------------ -/
/- C3 — InitLoan issues no custody-reassignment request                -/
/- ------------------------------------------------------------------ -/

/-- C3 (refuting evaluation): on a fully valid input `process_init_loan`
succeeds, yet issues no custody-reassignment (`set_authority`) request at
all — for this input and, as the second conjunct shows, for every input.
The fee-escrow (temp token) account is therefore never placed in custody,
although `InitLoan`'s own doc comment in instruction.rs says "The token
account is then transferred to be owned by the program". -/
theorem c3_init_no_custody_request :
    (process_init_loan [9] init_accs 500).fst = Except.ok () ∧
    ∀ (pid : Pubkey) (accs : InitLoanAccounts) (amt : Nat),
      ((process_init_loan pid accs amt).snd.any Effect.is_custody_request) = false := by
  refine ⟨by decide, ?_⟩
  intro pid accs amt
  unfold process_init_loan
  split_ifs <;> try rfl
  cases accs.loan_data with
  | error e => rfl
  | ok l =>
      by_cases h : l.is_initialized <;>
        simp [h, Effect.is_custody_request]

/- ------------------------------------------------------------------ -/
/- C9 — RepayLoan ignores the loan record account's owner              -/
/- ------------------------------------------------------------------ -/

/-- C9: `process_repay_loan`, unlike the other three handlers, never reads
the loan record account's owner (nor any rent-exemption predicate — none is
among its inputs): replacing that owner by anything leaves the outcome
literally identical. -/
theorem c9_repay_ignores_loan_owner (pid : Pubkey) (accs : RepayLoanAccounts)
    (o : Pubkey) :
    process_repay_loan pid
      { accs with loan_account_info := { accs.loan_account_info with owner := o } } =
    process_repay_loan pid accs := rfl

/- ------------------------------------------------------------------ -/
/- C1 — amount vs expected_amount after InitLoan                       -/
/- ------------------------------------------------------------------ -/

/-- C1 counterexample: with the policy constants, a fully valid
`InitLoan(principal = 1)` succeeds and stores `amount = 0 <
expected_amount = 1`, refuting `amount >= expected_amount` "for all
principal values ≥ 0". -/
theorem c1_init_amount_lt_expected_cex :
    (process_init_loan [9] init_accs 1).fst = Except.ok () ∧
    written_record (process_init_loan [9] init_accs 1).snd = some c1_rec ∧
    ¬ c1_rec.amount ≥ c1_rec.expected_amount := by
  refine ⟨by decide, by decide, by decide⟩

/-- C1 amended: after every successful `InitLoan` the stored record has
`amount = 0` (the policy duration `24*30 = 720` is below `24*365`, so
`get_borrowed_amount` floors to zero) and `expected_amount = principal`;
hence `amount ≥ expected_amount` holds exactly when the requested principal
is `0`, not for every principal ≥ 0. -/
theorem c1_init_amount_zero_amended (pid : Pubkey) (accs : InitLoanAccounts)
    (principal : Nat) (r : LoanRecord)
    (hok : (process_init_loan pid accs principal).fst = Except.ok ())
    (hw : written_record (process_init_loan pid accs principal).snd = some r) :
    r.amount = 0 ∧ r.expected_amount = principal ∧
      (r.amount ≥ r.expected_amount ↔ principal = 0) := by
  unfold process_init_loan at hok hw
  split_ifs at hok hw
  cases hdat : accs.loan_data with
  | error e => rw [hdat] at hok; simp at hok
  | ok l =>
      rw [hdat] at hok hw
      dsimp only at hok hw
      by_cases hi : l.is_initialized
      · simp [hi] at hok
      · rw [if_neg hi] at hw
        simp only [written_record, Option.some.injEq] at hw
        subst hw
        refine ⟨?_, rfl, ?_⟩
        · simp [get_borrowed_amount, get_duration, get_interest_rate,
            get_processing_fee]
        · simp only [ge_iff_le]
          simp [get_borrowed_amount, get_duration, get_interest_rate,
            get_processing_fee, Nat.le_zero]

/-- C1 witness for the amended statement: at principal `0` the hypotheses
hold and the stored record has `amount = 0 = expected_amount`. -/
theorem c1_init_amount_zero_witness :
    c1_rec0.amount = 0 ∧ c1_rec0.expected_amount = 0 ∧
      (c1_rec0.amount ≥ c1_rec0.expected_amount ↔ 0 = 0) :=
  c1_init_amount_zero_amended [9] init_accs 0 c1_rec0 (by decide) (by decide)

/- ------------------------------------------------------------------ -/
/- C2 — the total-repayable formula and the degenerate 13337 example   -/
/- ------------------------------------------------------------------ -/

/-- C2: `get_borrowed_amount` computes the literal integer floor formula
`floor(duration / (24*365)) * (floor((rate + processing_fee_pct)/100) + 1) *
principal` (whenever the `u32` sum and the `u64` product do not wrap, which
covers every value the program itself feeds in); in particular, with the
policy constants (`interest_rate = 9`, `processing_fee = 1`,
`duration = 720`), `InitLoan(principal = 13337)` succeeds and stores
`amount = 0`. -/
theorem c2_total_repayable_formula :
    (∀ (b : Pubkey) (e d r : Nat),
      r + get_processing_fee b e d r < 2 ^ 32 →
      d / (24 * 365) * ((r + get_processing_fee b e d r) / 100 + 1) * e < 2 ^ 64 →
      get_borrowed_amount b e d r =
        d / (24 * 365) * ((r + get_processing_fee b e d r) / 100 + 1) * e) ∧
    (process_init_loan [9] init_accs 13337).fst = Except.ok () ∧
    (written_record (process_init_loan [9] init_accs 13337).snd).map
      (fun r => r.amount) = some 0 := by
  refine ⟨?_, by decide, by decide⟩
  intro b e d r h1 h2
  unfold get_borrowed_amount
  dsimp only
  rw [Nat.mod_eq_of_lt h1]
  rcases Nat.eq_zero_or_pos e with he | he
  · subst he; simp
  · have hA : d / (24 * 365) * ((r + get_processing_fee b e d r) / 100 + 1) < 2 ^ 64 :=
      lt_of_le_of_lt (Nat.le_mul_of_pos_right _ he) h2
    rw [Nat.mod_eq_of_lt hA, Nat.mod_eq_of_lt h2]

/-- C2 witness: the formula instance at the program's own policy values
(`rate = 9`, `fee = 1`, `duration = 720`) with principal 5 evaluates to 0 on
both sides. -/
theorem c2_total_repayable_witness :
    get_borrowed_amount [1] 5 720 9 =
      720 / (24 * 365) * ((9 + get_processing_fee [1] 5 720 9) / 100 + 1) * 5 :=
  c2_total_repayable_formula.1 [1] 5 720 9 (by decide) (by decide)

/- ------------------------------------------------------------------ -/
/- Fixtures for the guarantee / accept / repay handlers                -/
/- ------------------------------------------------------------------ -/

/-- A concrete initialized record (status `Initialized`). -/
def rec_init : LoanRecord :=
  { is_initialized := true
    status := LoanStatus.Initialized
    initializer_pubkey := [1]
    loan_mint_pubkey := [2]
    borrower_loan_receive_pubkey := [3]
    expected_amount := 500
    amount := 1000
    interest_rate := 9
    duration := 720 }

/-- A concrete guaranteed record (status `Guaranteed`). -/
def rec_guar : LoanRecord :=
  { rec_init with
    status := LoanStatus.Guaranteed
    guarantor_pubkey := some [11]
    guarantor_repayment_pubkey := some [13]
    collateral_account_pubkey := some [12] }

/-- A concrete accepted record (status `Accepted`). -/
def rec_acc : LoanRecord :=
  { rec_guar with
    status := LoanStatus.Accepted
    lender_pubkey := some [21]
    lender_repayment_pubkey := some [23] }

/-- A concrete, fully valid `GuaranteeLoan` account bundle. -/
def guar_accs : GuaranteeLoanAccounts :=
  { guarantor_info := acct [11] true [0] 0
    collateral_account_info := acct [12] false [0] 5000
    guarantor_payment_account_info := acct [13] false [0] 100
    loan_account_info := acct [4] false [9] 50
    rent_is_exempt := fun _ _ => true
    token_program := acct spl_token_id false [0] 0
    loan_data := Except.ok rec_init }

/-- A concrete, fully valid `AcceptLoan` account bundle. -/
def acc_accs : AcceptLoanAccounts :=
  { lender_info := acct [21] true [0] 0
    lender_loan_transfer_info := acct [22] false [0] 5000
    lender_repayment_account_info := acct [23] false spl_token_id 100
    borrower_loan_receive_account_info := acct [3] false [0] 0
    loan_account_info := acct [4] false [9] 50
    rent_is_exempt := fun _ _ => true
    token_program := acct spl_token_id false [0] 0
    loan_data := Except.ok rec_guar }

/-- A concrete, fully valid `RepayLoan` account bundle. -/
def rep_accs : RepayLoanAccounts :=
  { payer_info := acct [1] true [0] 0
    payer_token_account_info := acct [31] false [0] 5000
    guarantor_account_info := acct [11] false [0] 0
    collateral_token_account_info := acct [12] false [0] 0
    guarantor_token_account_info := acct [13] false [0] 0
    lender_account_info := acct [21] false [0] 0
    lender_token_account_info := acct [23] false [0] 0
    loan_account_info := acct [4] false [9] 50
    pda_account_info := acct [40] false [0] 0
    token_program := acct spl_token_id false [0] 0
    loan_data := Except.ok rec_acc }

/- ------------------------------------------------------------------ -/
/- C4 — status preconditions                                           -/
/- ------------------------------------------------------------------ -/

/-- C4: with the preceding per-operation checks passing, `InitLoan` on an
already-initialized record fails with `AccountAlreadyInitialized`
(the spec's AlreadyInitialized), and `GuaranteeLoan` / `AcceptLoan` /
`RepayLoan` fail with `Custom InvalidInstruction` (the code's encoding of
the spec's InvalidStateForOperation) whenever the initialized record's
status is not exactly `Initialized` / `Guaranteed` / `Accepted`
respectively; in every such failing case the handler issues no effect, so
the record is not mutated. -/
theorem c4_status_gate :
    (∀ (pid : Pubkey) (accs : InitLoanAccounts) (amt : Nat) (l : LoanRecord),
      accs.initializer.is_signer = true →
      accs.token_to_receive_account.owner = spl_token_id →
      accs.loan_account.owner = pid →
      accs.rent_is_exempt accs.loan_account.lamports accs.loan_account.data_len = true →
      ¬ accs.loan_account.lamports < get_application_fee accs.initializer.key amt * amt →
      accs.loan_data = Except.ok l →
      l.is_initialized = true →
      process_init_loan pid accs amt =
        (Except.error ProgramError.AccountAlreadyInitialized, [])) ∧
    (∀ (pid : Pubkey) (accs : GuaranteeLoanAccounts) (l : LoanRecord),
      accs.guarantor_info.is_signer = true →
      accs.loan_account_info.owner = pid →
      accs.rent_is_exempt accs.loan_account_info.lamports
        accs.loan_account_info.data_len = true →
      accs.loan_data = Except.ok l →
      l.is_initialized = true →
      l.status ≠ LoanStatus.Initialized →
      process_guarantee_loan pid accs =
        (Except.error (ProgramError.Custom LoanError.InvalidInstruction), [])) ∧
    (∀ (pid : Pubkey) (accs : AcceptLoanAccounts) (l : LoanRecord),
      accs.lender_info.is_signer = true →
      accs.lender_repayment_account_info.owner = spl_token_id →
      accs.loan_account_info.owner = pid →
      accs.rent_is_exempt accs.loan_account_info.lamports
        accs.loan_account_info.data_len = true →
      accs.rent_is_exempt accs.lender_repayment_account_info.lamports
        accs.lender_repayment_account_info.data_len = true →
      accs.loan_data = Except.ok l →
      l.is_initialized = true →
      l.status ≠ LoanStatus.Guaranteed →
      process_accept_loan pid accs =
        (Except.error (ProgramError.Custom LoanError.InvalidInstruction), [])) ∧
    (∀ (pid : Pubkey) (accs : RepayLoanAccounts) (l : LoanRecord),
      accs.payer_info.is_signer = true →
      accs.loan_data = Except.ok l →
      l.is_initialized = true →
      l.status ≠ LoanStatus.Accepted →
      process_repay_loan pid accs =
        (Except.error (ProgramError.Custom LoanError.InvalidInstruction), [])) := by
  refine ⟨?_, ?_, ?_, ?_⟩
  · intro pid accs amt l h1 h2 h3 h4 h5 hdat hi
    unfold process_init_loan
    rw [hdat]
    simp [h1, h2, h3, h4, h5, hi]
  · intro pid accs l h1 h2 h3 hdat hi hs
    unfold process_guarantee_loan
    rw [hdat]
    simp [h1, h2, h3, hi, hs]
  · intro pid accs l h1 h2 h3 h4 h5 hdat hi hs
    unfold process_accept_loan
    rw [hdat]
    simp [h1, h2, h3, h4, h5, hi, hs]
  · intro pid accs l h1 hdat hi hs
    unfold process_repay_loan
    rw [hdat]
    simp [h1, hi, hs]

/-- C4 witness: all four gates evaluated on concrete account bundles whose
records carry the wrong status. -/
theorem c4_status_gate_witness :
    process_init_loan [9] { init_accs with loan_data := Except.ok rec_init } 1 =
      (Except.error ProgramError.AccountAlreadyInitialized, []) ∧
    process_guarantee_loan [9] { guar_accs with loan_data := Except.ok rec_guar } =
      (Except.error (ProgramError.Custom LoanError.InvalidInstruction), []) ∧
    process_accept_loan [9] { acc_accs with loan_data := Except.ok rec_init } =
      (Except.error (ProgramError.Custom LoanError.InvalidInstruction), []) ∧
    process_repay_loan [9] { rep_accs with loan_data := Except.ok rec_guar } =
      (Except.error (ProgramError.Custom LoanError.InvalidInstruction), []) :=
  ⟨c4_status_gate.1 [9] _ 1 rec_init rfl rfl rfl rfl (by decide) rfl rfl,
   c4_status_gate.2.1 [9] _ rec_guar rfl rfl rfl rfl rfl (by decide),
   c4_status_gate.2.2.1 [9] _ rec_init rfl rfl rfl rfl rfl rfl rfl (by decide),
   c4_status_gate.2.2.2 [9] _ rec_guar rfl rfl rfl (by decide)⟩

/- ------------------------------------------------------------------ -/
/- C5 — RepayLoan identity checks                                      -/
/- ------------------------------------------------------------------ -/

/-- C5: once `RepayLoan` reaches its identity checks (signer verified,
record decoded, status `Accepted`, payer balance sufficient), if any one of
the five presented accounts (guarantor, guarantor-repayment, collateral,
lender, lender-repayment) differs from the identity recorded at the earlier
stages, the handler fails with `Custom NotAuthorized` having issued no
effect — no record mutation and no transfer. -/
theorem c5_repay_identity_gate (pid : Pubkey) (accs : RepayLoanAccounts)
    (l : LoanRecord)
    (h1 : accs.payer_info.is_signer = true)
    (hdat : accs.loan_data = Except.ok l)
    (hi : l.is_initialized = true)
    (hs : l.status = LoanStatus.Accepted)
    (hb : ¬ accs.payer_token_account_info.lamports < l.amount)
    (hmis : ¬ (some accs.guarantor_account_info.key = l.guarantor_pubkey ∧
        some accs.guarantor_token_account_info.key = l.guarantor_repayment_pubkey ∧
        some accs.collateral_token_account_info.key = l.collateral_account_pubkey ∧
        some accs.lender_account_info.key = l.lender_pubkey ∧
        some accs.lender_token_account_info.key = l.lender_repayment_pubkey)) :
    process_repay_loan pid accs =
      (Except.error (ProgramError.Custom LoanError.NotAuthorized), []) := by
  unfold process_repay_loan
  rw [hdat]
  by_cases g1 : some accs.guarantor_account_info.key = l.guarantor_pubkey
  · by_cases g2 : some accs.guarantor_token_account_info.key =
        l.guarantor_repayment_pubkey
    · by_cases g3 : some accs.collateral_token_account_info.key =
          l.collateral_account_pubkey
      · by_cases g4 : some accs.lender_account_info.key = l.lender_pubkey
        · by_cases g5 : some accs.lender_token_account_info.key =
              l.lender_repayment_pubkey
          · exact absurd ⟨g1, g2, g3, g4, g5⟩ hmis
          · simp [h1, hi, hs, hb, g1, g2, g3, g4, g5]
        · simp [h1, hi, hs, hb, g1, g2, g3, g4]
      · simp [h1, hi, hs, hb, g1, g2, g3]
    · simp [h1, hi, hs, hb, g1, g2]
  · simp [h1, hi, hs, hb, g1]

/-- C5 witness: a repay attempt presenting a wrong guarantor account is
rejected with `NotAuthorized` and no effect. -/
theorem c5_repay_identity_gate_witness :
    process_repay_loan [9]
      { rep_accs with guarantor_account_info := acct [99] false [0] 0 } =
      (Except.error (ProgramError.Custom LoanError.NotAuthorized), []) :=
  c5_repay_identity_gate [9] _ rec_acc rfl rfl rfl rfl (by decide) (by decide)

/- ------------------------------------------------------------------ -/
/- C6 — InsufficientFunds before any effect                            -/
/- ------------------------------------------------------------------ -/

/-- C6: for each operation with a balance precondition — `GuaranteeLoan`
(collateral balance ≥ `amount`), `AcceptLoan` (lender transfer-source
balance ≥ `expected_amount`), `RepayLoan` (payer balance ≥ `amount`) — an
insufficient balance is rejected with `InsufficientFunds` and the handler
issues no effect at all: no custody-reassignment request and no record
write. -/
theorem c6_insufficient_funds_gate :
    (∀ (pid : Pubkey) (accs : GuaranteeLoanAccounts) (l : LoanRecord),
      accs.guarantor_info.is_signer = true →
      accs.loan_account_info.owner = pid →
      accs.rent_is_exempt accs.loan_account_info.lamports
        accs.loan_account_info.data_len = true →
      accs.loan_data = Except.ok l →
      l.is_initialized = true →
      l.status = LoanStatus.Initialized →
      accs.collateral_account_info.lamports < l.amount →
      process_guarantee_loan pid accs =
        (Except.error ProgramError.InsufficientFunds, [])) ∧
    (∀ (pid : Pubkey) (accs : AcceptLoanAccounts) (l : LoanRecord),
      accs.lender_info.is_signer = true →
      accs.lender_repayment_account_info.owner = spl_token_id →
      accs.loan_account_info.owner = pid →
      accs.rent_is_exempt accs.loan_account_info.lamports
        accs.loan_account_info.data_len = true →
      accs.rent_is_exempt accs.lender_repayment_account_info.lamports
        accs.lender_repayment_account_info.data_len = true →
      accs.loan_data = Except.ok l →
      l.is_initialized = true →
      l.status = LoanStatus.Guaranteed →
      accs.borrower_loan_receive_account_info.key = l.borrower_loan_receive_pubkey →
      accs.lender_loan_transfer_info.lamports < l.expected_amount →
      process_accept_loan pid accs =
        (Except.error ProgramError.InsufficientFunds, [])) ∧
    (∀ (pid : Pubkey) (accs : RepayLoanAccounts) (l : LoanRecord),
      accs.payer_info.is_signer = true →
      accs.loan_data = Except.ok l →
      l.is_initialized = true →
      l.status = LoanStatus.Accepted →
      accs.payer_token_account_info.lamports < l.amount →
      process_repay_loan pid accs =
        (Except.error ProgramError.InsufficientFunds, [])) := by
  refine ⟨?_, ?_, ?_⟩
  · intro pid accs l h1 h2 h3 hdat hi hs hbal
    unfold process_guarantee_loan
    rw [hdat]
    simp [h1, h2, h3, hi, hs, hbal]
  · intro pid accs l h1 h2 h3 h4 h5 hdat hi hs hk hbal
    unfold process_accept_loan
    rw [hdat]
    simp [h1, h2, h3, h4, h5, hi, hs, hk, hbal]
  · intro pid accs l h1 hdat hi hs hbal
    unfold process_repay_loan
    rw [hdat]
    simp [h1, hi, hs, hbal]

/-- C6 witness: all three balance gates evaluated on concrete bundles whose
relevant source account holds 10 lamports, below the required 1000 / 500 /
1000. -/
theorem c6_insufficient_funds_gate_witness :
    process_guarantee_loan [9]
      { guar_accs with collateral_account_info := acct [12] false [0] 10 } =
      (Except.error ProgramError.InsufficientFunds, []) ∧
    process_accept_loan [9]
      { acc_accs with lender_loan_transfer_info := acct [22] false [0] 10 } =
      (Except.error ProgramError.InsufficientFunds, []) ∧
    process_repay_loan [9]
      { rep_accs with payer_token_account_info := acct [31] false [0] 10 } =
      (Except.error ProgramError.InsufficientFunds, []) :=
  ⟨c6_insufficient_funds_gate.1 [9] _ rec_init rfl rfl rfl rfl rfl rfl (by decide),
   c6_insufficient_funds_gate.2.1 [9] _ rec_guar rfl rfl rfl rfl rfl rfl rfl rfl
     (by decide) (by decide),
   c6_insufficient_funds_gate.2.2 [9] _ rec_acc rfl rfl rfl rfl (by decide)⟩

/- ------------------------------------------------------------------ -/
/- C7 — Loan record codec round trip                                   -/
/- ------------------------------------------------------------------ -/

theorem length_pack_coption_key (o : Option Pubkey) (old : List Nat)
    (hk : ∀ k ∈ o, k.length = 32) (hold : old.length = 36) :
    (pack_coption_key o old).length = 36 := by
  cases o with
  | none => simp [pack_coption_key, hold]
  | some k => simp [pack_coption_key, hk k rfl]

theorem unpack_coption_key_pack (o : Option Pubkey) (old : List Nat) :
    unpack_coption_key (pack_coption_key o old) = Except.ok o := by
  cases o <;> simp [pack_coption_key, unpack_coption_key]

/-- Evaluation of `unpack_from_slice` on an explicit 12-chunk buffer whose
fallible components all decode. -/
theorem unpack_from_slice_chunks (b0 s0 : Nat) (i t b G L LR E A R D : List Nat)
    (ii : Bool) (g' le' lr' : Option Pubkey)
    (hi : i.length = 32) (ht : t.length = 32) (hb : b.length = 32)
    (hG : G.length = 36) (hL : L.length = 36) (hLR : LR.length = 36)
    (hE : E.length = 8) (hA : A.length = 8) (hR : R.length = 4) (hD : D.length = 4)
    (hb0 : (if ([b0] : List Nat) = [0] then Except.ok false
            else if ([b0] : List Nat) = [1] then Except.ok true
            else Except.error ProgramError.InvalidAccountData) = Except.ok ii)
    (hg' : unpack_coption_key G = Except.ok g')
    (hle' : unpack_coption_key L = Except.ok le')
    (hlr' : unpack_coption_key LR = Except.ok lr') :
    unpack_from_slice ([b0] ++ [s0] ++ i ++ t ++ b ++ G ++ L ++ LR ++ E ++ A ++ R ++ D) =
      Except.ok { is_initialized := ii
                  status := leToNat [s0]
                  initializer_pubkey := i
                  temp_token_account_pubkey := t
                  borrower_loan_receive_pubkey := b
                  guarantor_pubkey := g'
                  lender_pubkey := le'
                  lender_loan_repayment_pubkey := lr'
                  expected_amount := leToNat E
                  amount := leToNat A
                  interest_rate := leToNat R
                  duration := leToNat D } := by
  have hlen : (([b0] ++ [s0] ++ i ++ t ++ b ++ G ++ L ++ LR ++ E ++ A ++ R ++ D)).length
      = 230 := by
    simp [List.length_append, hi, ht, hb, hG, hL, hLR, hE, hA, hR, hD]
  unfold unpack_from_slice
  dsimp only
  rw [List.take_of_length_le (le_of_eq hlen)]
  simp only [List.append_assoc, List.singleton_append, List.cons_append,
    List.nil_append, List.drop_succ_cons, List.drop_zero, List.take_succ_cons,
    List.take_zero]
  rw [List.take_left' hi, List.drop_left' hi]
  rw [List.take_left' ht, List.drop_left' ht]
  rw [List.take_left' hb, List.drop_left' hb]
  rw [List.take_left' hG, List.drop_left' hG]
  rw [List.take_left' hL, List.drop_left' hL]
  rw [List.take_left' hLR, List.drop_left' hLR]
  rw [List.take_left' hE, List.drop_left' hE]
  rw [List.take_left' hA, List.drop_left' hA]
  rw [List.take_left' hR, List.drop_left' hR]
  rw [List.take_of_length_le (le_of_eq hD)]
  rw [hb0, hg', hle', hlr']

/-- C7: for every well-formed `Loan` value — any status byte, any
combination of present/absent optional identities — and every 230-byte
destination buffer, packing the record and decoding the result yields the
original record in every field. -/
theorem c7_record_roundtrip (l : Loan) (buf : List Nat) (hl : l.wf)
    (hbuf : buf.length = 230) :
    unpack_from_slice (pack_into_slice l buf) = Except.ok l := by
  obtain ⟨ii, st, ip, tp, bp, gp, lp, lrp, ea, am, ir, du⟩ := l
  obtain ⟨hs, hi, ht, hb, hg, hle, hlr, he, ha, hr, hd⟩ := hl
  have htake : buf.take 230 = buf := List.take_of_length_le (by omega)
  have hdropnil : buf.drop 230 = [] := List.drop_eq_nil_of_le (by omega)
  have hold_g : ((buf.drop 98).take 36).length = 36 := by
    simp [List.length_take, List.length_drop, hbuf]
  have hold_l : ((buf.drop 134).take 36).length = 36 := by
    simp [List.length_take, List.length_drop, hbuf]
  have hold_lr : ((buf.drop 170).take 36).length = 36 := by
    simp [List.length_take, List.length_drop, hbuf]
  have hst : leToNat [st % 256] = st := by
    simp [leToNat, Nat.mod_eq_of_lt hs]
  have hea : leToNat (natToLE 8 ea) = ea :=
    leToNat_natToLE 8 ea (lt_of_lt_of_eq he (by norm_num))
  have ham : leToNat (natToLE 8 am) = am :=
    leToNat_natToLE 8 am (lt_of_lt_of_eq ha (by norm_num))
  have hir : leToNat (natToLE 4 ir) = ir :=
    leToNat_natToLE 4 ir (lt_of_lt_of_eq hr (by norm_num))
  have hdu : leToNat (natToLE 4 du) = du :=
    leToNat_natToLE 4 du (lt_of_lt_of_eq hd (by norm_num))
  unfold pack_into_slice
  dsimp only
  rw [htake, hdropnil, List.append_nil]
  rw [unpack_from_slice_chunks (cond ii 1 0) (st % 256) ip tp bp _ _ _ _ _ _ _
        ii gp lp lrp hi ht hb
        (length_pack_coption_key gp _ hg hold_g)
        (length_pack_coption_key lp _ hle hold_l)
        (length_pack_coption_key lrp _ hlr hold_lr)
        (length_natToLE 8 ea) (length_natToLE 8 am)
        (length_natToLE 4 ir) (length_natToLE 4 du)
        (by cases ii <;> simp)
        (unpack_coption_key_pack gp _) (unpack_coption_key_pack lp _)
        (unpack_coption_key_pack lrp _)]
  rw [hst, hea, ham, hir, hdu]

/-- C7 witness: the round trip evaluated on a concrete record with status
`Accepted` and all three optional identities present, over an all-ones
buffer. -/
theorem c7_record_roundtrip_witness :
    unpack_from_slice (pack_into_slice
      { is_initialized := true
        status := LoanStatus.Accepted
        initializer_pubkey := List.replicate 32 1
        temp_token_account_pubkey := List.replicate 32 2
        borrower_loan_receive_pubkey := List.replicate 32 3
        guarantor_pubkey := some (List.replicate 32 4)
        lender_pubkey := some (List.replicate 32 5)
        lender_loan_repayment_pubkey := some (List.replicate 32 6)
        expected_amount := 13337
        amount := 20000
        interest_rate := 9
        duration := 720 } (List.replicate 230 1)) =
      Except.ok
      { is_initialized := true
        status := LoanStatus.Accepted
        initializer_pubkey := List.replicate 32 1
        temp_token_account_pubkey := List.replicate 32 2
        borrower_loan_receive_pubkey := List.replicate 32 3
        guarantor_pubkey := some (List.replicate 32 4)
        lender_pubkey := some (List.replicate 32 5)
        lender_loan_repayment_pubkey := some (List.replicate 32 6)
        expected_amount := 13337
        amount := 20000
        interest_rate := 9
        duration := 720 } :=
  c7_record_roundtrip _ _ (by decide) (by decide)

/- ------------------------------------------------------------------ -/
/- C8 — failure conditions of Loan-record unpack                       -/
/- ------------------------------------------------------------------ -/

/-- The tag bytes of a 230-byte loan record buffer are valid: the
`initialized` byte at offset 0 is 0 or 1, and each optional-identity tag
(offsets 98, 134, 170) is `[0,0,0,0]` or `[1,0,0,0]`. -/
def tags_valid (buf : List Nat) : Prop :=
  (buf.take 1 = [0] ∨ buf.take 1 = [1]) ∧
  ((buf.drop 98).take 4 = [0, 0, 0, 0] ∨ (buf.drop 98).take 4 = [1, 0, 0, 0]) ∧
  ((buf.drop 134).take 4 = [0, 0, 0, 0] ∨ (buf.drop 134).take 4 = [1, 0, 0, 0]) ∧
  ((buf.drop 170).take 4 = [0, 0, 0, 0] ∨ (buf.drop 170).take 4 = [1, 0, 0, 0])

instance (buf : List Nat) : Decidable (tags_valid buf) := by
  unfold tags_valid
  infer_instance

/-- A concrete well-formed record used for the C8 buffers. -/
def c8_loan : Loan :=
  { is_initialized := true
    status := LoanStatus.Initialized
    initializer_pubkey := List.replicate 32 7
    temp_token_account_pubkey := List.replicate 32 8
    borrower_loan_receive_pubkey := List.replicate 32 9
    guarantor_pubkey := some (List.replicate 32 10)
    lender_pubkey := none
    lender_loan_repayment_pubkey := some (List.replicate 32 11)
    expected_amount := 300
    amount := 0
    interest_rate := 9
    duration := 720 }

/-- A 231-byte buffer: a validly packed record with one trailing byte. -/
def c8_buf : List Nat :=
  pack_into_slice c8_loan (List.replicate 230 0) ++ [0]

/-- C8 counterexample: a 231-byte buffer whose 230-byte prefix is a validly
packed record (every tag byte valid, length not shorter than 230 — indeed
`unpack_from_slice` itself parses it) is nevertheless rejected by the
record-decoding entry point `Loan::unpack_unchecked` with the corrupt-record
error, refuting "fails ... exactly when a tag byte is invalid or the buffer
is shorter than 230 bytes". -/
theorem c8_unpack_len_cex :
    Loan.unpack_unchecked c8_buf = Except.error ProgramError.InvalidAccountData ∧
    unpack_from_slice c8_buf = Except.ok c8_loan ∧
    c8_buf.length = 231 ∧ tags_valid c8_buf :=
  ⟨by decide, by decide, by decide, by decide⟩

/-- Whether a record-decoding outcome is a failure. -/
def is_error_result : Except ProgramError Loan → Bool
  | Except.error _ => true
  | Except.ok _ => false

/-- C8 amended: `Loan::unpack_unchecked` is total and never panics; it fails
— always with `InvalidAccountData` (the spec's CorruptRecord) — exactly when
the buffer's length differs from the fixed record width 230 (longer buffers
are rejected too, not only shorter ones) or some tag byte (`initialized` or
an optional-identity tag) is invalid. -/
theorem c8_unpack_fail_iff (buf : List Nat) :
    (Loan.unpack_unchecked buf = Except.error ProgramError.InvalidAccountData ↔
      (buf.length ≠ 230 ∨ ¬ tags_valid buf)) ∧
    (is_error_result (Loan.unpack_unchecked buf) = true ↔
      Loan.unpack_unchecked buf = Except.error ProgramError.InvalidAccountData) := by
  have hmin436 : min 4 36 = 4 := by norm_num
  by_cases hlen : buf.length = 230
  · have htake : buf.take 230 = buf := List.take_of_length_le (by omega)
    unfold Loan.unpack_unchecked Loan.LEN
    rw [if_neg (by omega)]
    unfold unpack_from_slice unpack_coption_key
    dsimp only
    rw [htake]
    simp only [List.drop_drop, List.take_take, hmin436]
    norm_num
    split_ifs <;> simp_all [tags_valid, hlen, is_error_result]
  · unfold Loan.unpack_unchecked Loan.LEN
    rw [if_pos (by omega)]
    simp [hlen, is_error_result]

/-- C8 witness for the amended statement: a buffer of the wrong length (the
empty buffer) is rejected with `InvalidAccountData`, matching the predicate. -/
theorem c8_unpack_fail_iff_witness :
    (Loan.unpack_unchecked [] = Except.error ProgramError.InvalidAccountData ↔
      (([] : List Nat).length ≠ 230 ∨ ¬ tags_valid [])) ∧
    (is_error_result (Loan.unpack_unchecked []) = true ↔
      Loan.unpack_unchecked [] = Except.error ProgramError.InvalidAccountData) :=
  c8_unpack_fail_iff []
